import Mathlib

/-!
# Trend Scout — scoring and caching core, shallow embedding

Shallow embedding of the scoring and storage core of the trend-scout
repository (`src/trendscout/score.py`, `src/trendscout/store.py`,
`src/trendscout/models.py`), together with proofs of the specification
claims about it.

Conventions of the embedding:
* Python floats that only ever hold small decimal score values are
  modelled as rationals (`ℚ`).
* Timestamps are modelled as integers (seconds); dates as naturals
  (days); ISO-8601 strings compare lexicographically in the source,
  which agrees with the numeric order used here.
* SQLite tables are modelled as lists of row structures; `INSERT OR
  REPLACE` is delete-matching-key-then-append; `ORDER BY date DESC`
  is an explicit insertion sort by date, descending.
* The external publish sink is modelled as an in-memory list of rows;
  the delete and insert operations on it succeed (there is no model of
  the remote service failing), which is all the claims below need.
* Exceptions raised by the storage layer are modelled with `Except`.
-/

/-- Substring test on character lists: does `needle` occur at the start of
`hay`?  Used to embed Python's `in` operator on strings. -/
def startsAt : List Char → List Char → Bool
  | [], _ => true
  | _ :: _, [] => false
  | a :: as, b :: bs => a == b && startsAt as bs

/-- Does `needle` occur (contiguously) anywhere in `hay`?  This is the
embedding of Python's `needle in hay` substring test. -/
def occursIn (needle : List Char) : List Char → Bool
  | [] => startsAt needle []
  | c :: t => startsAt needle (c :: t) || occursIn needle t

/-- `term in hay` for strings, as the Python membership operator. -/
def strContains (hay term : String) : Bool :=
  occursIn term.toList hay.toList

/-- Embedding of Python's `str.lower()`.  The source only ever scans the
lowered text for ASCII keyword vocabularies, so ASCII lowercasing (what
`Char.toLower` performs) is a faithful model. -/
def lowerAscii (s : String) : String :=
  String.mk (s.data.map Char.toLower)

namespace AppScorer

/-- Keyword vocabulary `AppScorer.LOW_COMPLEXITY_KEYWORDS` from
`src/trendscout/score.py`. -/
def LOW_COMPLEXITY_KEYWORDS : List String :=
  ["counter", "timer", "widget", "filter", "scanner", "qr", "pdf",
   "noise", "ringtone", "collage", "converter", "calculator", "flashlight",
   "mirror", "ruler", "level", "compass", "magnifier", "recorder",
   "note", "memo", "reminder", "list", "simple", "basic", "easy"]

/-- Keyword vocabulary `AppScorer.HIGH_MOAT_KEYWORDS` from
`src/trendscout/score.py`. -/
def HIGH_MOAT_KEYWORDS : List String :=
  ["official", "disney", "marvel", "snapchat", "tiktok", "instagram",
   "facebook", "twitter", "youtube", "netflix", "spotify", "amazon",
   "google", "apple", "microsoft", "adobe", "sony", "nintendo",
   "pokemon", "star wars", "minecraft", "fortnite", "coca cola",
   "mcdonalds", "nike", "adidas", "uber", "airbnb", "tesla"]

/-- The rank-delta block of `compute_demand_score`: the accumulator update
performed by the `if rank_delta7d is not None` chain
(`src/trendscout/score.py`, lines 55-67). -/
def demandRankDeltaStep (score : ℚ) (rank_delta7d : Option Int) : ℚ :=
  match rank_delta7d with
  | none => score
  | some d =>
    if d ≤ -10 then score + 2.0
    else if d ≤ -5 then score + 1.5
    else if d ≤ -1 then score + 1.0
    else if d = 0 then score + 0.5
    else if d ≤ 5 then score + 0.0
    else score - 0.5

/-- The rating-volume block of `compute_demand_score`
(`src/trendscout/score.py`, lines 70-75). -/
def demandRatingStep (score : ℚ) (rating_count : Nat) : ℚ :=
  if rating_count ≥ 10000 then score + 1.0
  else if rating_count ≥ 1000 then score + 0.5
  else if rating_count ≥ 100 then score + 0.25
  else score

/-- The review-velocity block of `compute_demand_score`
(`src/trendscout/score.py`, line 78-79); it models the Python truthiness
test `recent_reviews and len(recent_reviews) >= 3` (a `None` and an
empty list both fail it). -/
def demandReviewStep (score : ℚ) (recent_reviews : Option (List String)) : ℚ :=
  match recent_reviews with
  | some revs => if revs.length ≥ 3 then score + 0.5 else score
  | none => score

/-- Embedding of `AppScorer.compute_demand_score`
(`src/trendscout/score.py`, lines 36-82): the `score` accumulator starts
at `1.0`, the three blocks update it in source order, and the result is
clamped by `max(1.0, min(5.0, score))`.  The rating count is a natural
number (the source validates `rating_count >= 0`). -/
def compute_demand_score (rank_delta7d : Option Int) (rating_count : Nat)
    (recent_reviews : Option (List String)) : ℚ :=
  max 1.0 (min 5.0
    (demandReviewStep
      (demandRatingStep (demandRankDeltaStep 1.0 rank_delta7d) rating_count)
      recent_reviews))

/-- The paywall-indicator vocabulary from
`AppScorer.compute_monetization_score` (`src/trendscout/score.py`). -/
def paywall_indicators : List String :=
  ["premium", "pro", "subscription", "upgrade", "unlock",
   "paywall", "purchase", "buy", "payment", "billing"]

/-- Embedding of `AppScorer.compute_monetization_score`
(`src/trendscout/score.py`, lines 84-124). -/
def compute_monetization_score (price : ℚ) (has_iap : Bool)
    (description : String) : ℚ :=
  if price > 0 then
    if has_iap then 5.0 else 3.0
  else
    if has_iap then
      let desc_lower := lowerAscii description
      let indicator_count :=
        (paywall_indicators.filter (fun t => strContains desc_lower t)).length
      if indicator_count ≥ 3 then 4.0 else 3.0
    else 1.0

/-- The complexity-indicator vocabulary from
`AppScorer.compute_low_complexity_score` (`src/trendscout/score.py`). -/
def complexity_indicators : List String :=
  ["ai", "ml", "machine learning", "neural", "algorithm",
   "analytics", "complex", "advanced", "professional",
   "enterprise", "business", "workflow", "integration"]

/-- Embedding of `AppScorer.compute_low_complexity_score`
(`src/trendscout/score.py`, lines 126-167). -/
def compute_low_complexity_score (name description : String) : ℚ :=
  let text_to_analyze := lowerAscii (name ++ " " ++ description)
  let keyword_matches :=
    (LOW_COMPLEXITY_KEYWORDS.filter (fun k => strContains text_to_analyze k)).length
  if keyword_matches ≥ 3 then 5.0
  else if keyword_matches ≥ 2 then 4.0
  else if keyword_matches ≥ 1 then 3.0
  else
    let complexity_matches :=
      (complexity_indicators.filter (fun k => strContains text_to_analyze k)).length
    if complexity_matches ≥ 2 then 1.0
    else if complexity_matches ≥ 1 then 2.0
    else 2.5

/-- The trademark-indicator vocabulary from
`AppScorer.compute_moat_risk_score` (`src/trendscout/score.py`). -/
def trademark_indicators : List String :=
  ["tm", "®", "©", "trademark", "copyright", "patent",
   "licensed", "authorized", "certified", "verified"]

/-- Embedding of `AppScorer.compute_moat_risk_score`
(`src/trendscout/score.py`, lines 169-204). -/
def compute_moat_risk_score (name description : String) : ℚ :=
  let text_to_analyze := lowerAscii (name ++ " " ++ description)
  let brand_matches :=
    (HIGH_MOAT_KEYWORDS.filter (fun k => strContains text_to_analyze k)).length
  if brand_matches ≥ 2 then 5.0
  else if brand_matches ≥ 1 then 4.0
  else
    let trademark_matches :=
      (trademark_indicators.filter (fun k => strContains text_to_analyze k)).length
    if trademark_matches ≥ 1 then 3.0
    else 1.0

/-- Rounding to two decimal places, the embedding of Python's
`round(total, 2)` in `compute_total_score`. -/
def roundTo2 (q : ℚ) : ℚ := (round (q * 100) : ℤ) / 100

/-- Embedding of `AppScorer.compute_total_score`
(`src/trendscout/score.py`, lines 206-233). -/
def compute_total_score (demand monetization low_complexity moat_risk : ℚ) : ℚ :=
  roundTo2 (0.35 * demand + 0.25 * monetization +
    0.25 * low_complexity + 0.15 * (5.0 - moat_risk))

end AppScorer

/-! ## Data model (`src/trendscout/models.py`) -/

/-- Embedding of `RawAppRecord` (`src/trendscout/models.py`, lines 9-20).
The RSS URL is kept as a string; the fetch timestamp is an integer; the
opaque `raw_data` JSON payload is modelled as an optional string. -/
structure RawAppRecord where
  category : String
  country : String
  chart : String
  rank : Int
  app_id : String
  name : String
  rss_url : String
  fetched_at : Int
  raw_data : Option String
deriving Repr, DecidableEq, Inhabited

/-- Embedding of `AppPageData` (`src/trendscout/models.py`, lines 23-32). -/
structure AppPageData where
  bundle_id : String
  price : ℚ
  has_iap : Bool
  rating_count : Nat
  rating_avg : ℚ
  desc_len : Nat
  recent_reviews : Option (List String)
deriving Repr, DecidableEq, Inhabited

/-- Embedding of `ScoredAppRecord` (`src/trendscout/models.py`, lines
35-51), which extends `RawAppRecord` with page data and scores. -/
structure ScoredAppRecord extends RawAppRecord where
  bundle_id : String
  price : ℚ
  has_iap : Bool
  rating_count : Nat
  rating_avg : ℚ
  desc_len : Nat
  rank_delta7d : Option Int
  demand : ℚ
  monetization : ℚ
  low_complexity : ℚ
  moat_risk : ℚ
  total : ℚ
deriving Repr, DecidableEq, Inhabited

namespace AppScorer

/-- Embedding of `AppScorer.score_app` (`src/trendscout/score.py`, lines
235-317): computes the four sub-scores and the total, passing an empty
description to the monetization, complexity and moat computations just as
the source does (only `desc_len` is available there, not the text). -/
def score_app (raw_record : RawAppRecord) (app_data : AppPageData)
    (rank_delta7d : Option Int) : ScoredAppRecord :=
  let demand := compute_demand_score rank_delta7d app_data.rating_count
    app_data.recent_reviews
  let monetization := compute_monetization_score app_data.price app_data.has_iap ""
  let low_complexity := compute_low_complexity_score raw_record.name ""
  let moat_risk := compute_moat_risk_score raw_record.name ""
  let total := compute_total_score demand monetization low_complexity moat_risk
  { toRawAppRecord := raw_record
    bundle_id := app_data.bundle_id
    price := app_data.price
    has_iap := app_data.has_iap
    rating_count := app_data.rating_count
    rating_avg := app_data.rating_avg
    desc_len := app_data.desc_len
    rank_delta7d := rank_delta7d
    demand := demand
    monetization := monetization
    low_complexity := low_complexity
    moat_risk := moat_risk
    total := total }

/-- Embedding of `AppScorer.score_apps` (`src/trendscout/score.py`, lines
319-355).  The Python dicts are modelled as association lists looked up
with `List.lookup`; a record whose app id has no entry in the attribute
map is skipped (the source logs and continues).  In this model
`score_app` is total, so the source's per-record exception handler has no
failing branch to take. -/
def score_apps (raw_records : List RawAppRecord)
    (app_data_map : List (String × AppPageData))
    (rank_deltas : Option (List (String × Int))) : List ScoredAppRecord :=
  raw_records.filterMap (fun raw_record =>
    match app_data_map.lookup raw_record.app_id with
    | none => none
    | some app_data =>
      let rank_delta : Option Int :=
        match rank_deltas with
        | some ds => ds.lookup raw_record.app_id
        | none => none
      some (score_app raw_record app_data rank_delta))

/-- The rank delta passed to one record by `score_apps`:
`rank_deltas.get(app_id) if rank_deltas else None`. -/
def deltaFor (rank_deltas : Option (List (String × Int))) (app_id : String) : Option Int :=
  match rank_deltas with
  | some ds => ds.lookup app_id
  | none => none

end AppScorer

/-! ## Rank history cache (`src/trendscout/store.py`, class SQLiteCache) -/

/-- One row of the `app_ranks` SQLite table
(`src/trendscout/store.py`, lines 38-46); the ISO date string is
modelled as a natural number (day ordinal), which preserves the order
used by `date >= cutoff` and `ORDER BY date DESC`. -/
structure RankRow where
  app_id : String
  category : String
  country : String
  chart : String
  rank : Int
  date : Nat
deriving Repr, DecidableEq, Inhabited

/-- The primary key of `app_ranks`:
`(app_id, category, country, chart, date)`. -/
def rankKey (r : RankRow) : String × String × String × String × Nat :=
  (r.app_id, r.category, r.country, r.chart, r.date)

/-- The row `store_ranks` writes for one record: the record's chart
fields plus today's date (`src/trendscout/store.py`, lines 72-84). -/
def toRankRow (record : RawAppRecord) (today : Nat) : RankRow :=
  { app_id := record.app_id
    category := record.category
    country := record.country
    chart := record.chart
    rank := record.rank
    date := today }

/-- `INSERT OR REPLACE` of one row into `app_ranks`: any row with the
same primary key is removed, then the new row is added. -/
def insertOrReplaceRank (table : List RankRow) (row : RankRow) : List RankRow :=
  table.filter (fun t => ¬ (rankKey t = rankKey row)) ++ [row]

/-- Embedding of `SQLiteCache.store_ranks`
(`src/trendscout/store.py`, lines 63-86): every record is written with
today's date using `INSERT OR REPLACE`. -/
def store_ranks (table : List RankRow) (records : List RawAppRecord)
    (today : Nat) : List RankRow :=
  records.foldl (fun tbl record => insertOrReplaceRank tbl (toRankRow record today)) table

/-- Number of rows of the table carrying a given primary key. -/
def countRankKey (table : List RankRow) (k : String × String × String × String × Nat) : Nat :=
  (table.filter (fun t => rankKey t = k)).length

/-- The `WHERE app_id = ? AND date >= ?` filter of `get_rank_deltas`
(`src/trendscout/store.py`, lines 106-112). -/
def windowRows (table : List RankRow) (app_id : String) (cutoff : Nat) : List RankRow :=
  table.filter (fun r => r.app_id = app_id ∧ cutoff ≤ r.date)

/-- Insert a row into a list kept sorted by date descending (used to
model `ORDER BY date DESC`; SQLite leaves the order of equal dates
unspecified, so any date-descending order is a faithful model). -/
def insertByDateDesc (r : RankRow) : List RankRow → List RankRow
  | [] => [r]
  | x :: xs => if x.date ≤ r.date then r :: x :: xs else x :: insertByDateDesc r xs

/-- Sort by date descending (insertion sort), modelling
`ORDER BY date DESC`. -/
def sortByDateDesc : List RankRow → List RankRow
  | [] => []
  | x :: xs => insertByDateDesc x (sortByDateDesc xs)

/-- The query of `get_rank_deltas`: in-window rows for one app, ordered
by date descending, `LIMIT 2`. -/
def queryTop2 (table : List RankRow) (app_id : String) (cutoff : Nat) : List RankRow :=
  (sortByDateDesc (windowRows table app_id cutoff)).take 2

/-- The loop body of `get_rank_deltas` for one app id: with `LIMIT 2` the
query returns at most two rows, so `len(rows) >= 2` means exactly two and
`rows[-1]` is the second; an app with fewer than two in-window rows
contributes nothing. -/
def deltaEntry (table : List RankRow) (cutoff : Nat)
    (app_id : String) : Option (String × Int) :=
  match queryTop2 table app_id cutoff with
  | [current, old] => some (app_id, current.rank - old.rank)
  | _ => none

/-- Embedding of `SQLiteCache.get_rank_deltas`
(`src/trendscout/store.py`, lines 88-121).  The cutoff date
(`today - days_back`) is taken as a parameter. -/
def get_rank_deltas (table : List RankRow) (app_ids : List String)
    (cutoff : Nat) : List (String × Int) :=
  app_ids.filterMap (deltaEntry table cutoff)

/-! ## Content cache (`src/trendscout/store.py`, class SQLiteCache) -/

/-- One row of the `app_html_cache` SQLite table
(`src/trendscout/store.py`, lines 48-54); `cached_at` is a timestamp in
seconds. -/
structure HtmlRow where
  app_id : String
  country : String
  html : String
  cached_at : Int
deriving Repr, DecidableEq, Inhabited

/-- The `WHERE app_id = ? AND country = ?` test of the content-cache
queries. -/
def htmlKeyMatches (app_id country : String) (r : HtmlRow) : Bool :=
  r.app_id = app_id ∧ r.country = country

/-- Embedding of `SQLiteCache.get_html`
(`src/trendscout/store.py`, lines 138-165): the current time is a
parameter (seconds), `cutoff_time = now - max_age_hours * 3600`, and the
cached HTML is returned only when `cached_at > cutoff_time`. -/
def get_html (table : List HtmlRow) (app_id country : String)
    (max_age_hours : Int) (now : Int) : Option String :=
  let cutoff_time := now - max_age_hours * 3600
  match table.find? (htmlKeyMatches app_id country) with
  | some row => if cutoff_time < row.cached_at then some row.html else none
  | none => none

/-! ## Publish sink (`src/trendscout/store.py`, class SupabasePublisher) -/

/-- One row of the `scout_results` sink table, as built by
`SupabasePublisher.convert_to_db_rows`
(`src/trendscout/store.py`, lines 223-244). -/
structure DbRow where
  generated_at : Int
  category : String
  country : String
  chart : String
  rank : Int
  app_id : String
  bundle_id : String
  name : String
  price : ℚ
  has_iap : Bool
  rating_count : Nat
  rating_avg : ℚ
  desc_len : Nat
  rank_delta7d : Option Int
  demand : ℚ
  monetization : ℚ
  low_complexity : ℚ
  moat_risk : ℚ
  total : ℚ
  raw : Option String
deriving Repr, DecidableEq, Inhabited

/-- The row built for one record by `convert_to_db_rows`. -/
def convert_to_db_row (generated_at : Int) (record : ScoredAppRecord) : DbRow :=
  { generated_at := generated_at
    category := record.category
    country := record.country
    chart := record.chart
    rank := record.rank
    app_id := record.app_id
    bundle_id := record.bundle_id
    name := record.name
    price := record.price
    has_iap := record.has_iap
    rating_count := record.rating_count
    rating_avg := record.rating_avg
    desc_len := record.desc_len
    rank_delta7d := record.rank_delta7d
    demand := record.demand
    monetization := record.monetization
    low_complexity := record.low_complexity
    moat_risk := record.moat_risk
    total := record.total
    raw := record.raw_data }

/-- Embedding of `SupabasePublisher.convert_to_db_rows`
(`src/trendscout/store.py`, lines 210-247): every row of one batch
carries the same `generated_at` timestamp (`datetime.utcnow()` in the
source, a parameter here). -/
def convert_to_db_rows (generated_at : Int)
    (scored_records : List ScoredAppRecord) : List DbRow :=
  scored_records.map (convert_to_db_row generated_at)

/-- The insert loop of `publish_results`
(`src/trendscout/store.py`, lines 272-280): rows are appended to the
sink in slices of at most 100. -/
def insertBatches (sink rows : List DbRow) : List DbRow :=
  match rows with
  | [] => sink
  | r :: rest => insertBatches (sink ++ ((r :: rest).take 100)) ((r :: rest).drop 100)
termination_by rows.length
decreasing_by simp [List.length_drop]; omega

/-- The delete-by-batch-timestamp call of `publish_results`:
`delete().eq("generated_at", generated_at)` keeps exactly the sink rows
of other batches. -/
def deleteBatchRows (sink : List DbRow) (generated_at : Int) : List DbRow :=
  sink.filter (fun row => ¬ (row.generated_at = generated_at))

/-- Embedding of `SupabasePublisher.publish_results`
(`src/trendscout/store.py`, lines 249-287) against the sink modelled as
a list of rows: an empty batch returns `True` untouched; otherwise every
sink row whose `generated_at` equals that of the first converted row is
deleted, then the converted rows are inserted in batches.  The sink
operations themselves succeed in this model (no remote failure), so the
`result.data` failure branch and the exception handler, which both
return `False`, are not taken. -/
def publish_results (sink : List DbRow) (now : Int)
    (scored_records : List ScoredAppRecord) : Bool × List DbRow :=
  match scored_records with
  | [] => (true, sink)
  | s :: ss =>
    let db_rows := convert_to_db_rows now (s :: ss)
    let generated_at := (convert_to_db_row now s).generated_at
    let afterDelete := deleteBatchRows sink generated_at
    (true, insertBatches afterDelete db_rows)

/-! ## DataStore (`src/trendscout/store.py`, class DataStore) -/

/-- The local cache table together with the remote sink contents. -/
structure DataStoreState where
  ranks : List RankRow
  sink : List DbRow
deriving Repr, DecidableEq, Inhabited

/-- `SQLiteCache.store_ranks` as seen by its caller: it raises on a
storage-layer I/O error, modelled by the `cache_write_fails` flag of the
environment, and otherwise performs the upsert. -/
def store_ranks_io (cache_write_fails : Bool) (table : List RankRow)
    (records : List RawAppRecord) (today : Nat) : Except String (List RankRow) :=
  if cache_write_fails then Except.error "sqlite io error"
  else Except.ok (store_ranks table records today)

/-- Embedding of `DataStore.store_and_publish`
(`src/trendscout/store.py`, lines 344-383): the scored records are
stripped back to raw records and written to the rank cache, then the
records are published.  The whole body sits in one `try/except` that
returns `False`, so an exception from the cache write short-circuits to
`(false, unchanged state)` without reaching the publish call. -/
def store_and_publish (cache_write_fails : Bool) (st : DataStoreState)
    (today : Nat) (now : Int)
    (scored_records : List ScoredAppRecord) : Bool × DataStoreState :=
  let raw_records := scored_records.map (fun s => s.toRawAppRecord)
  match store_ranks_io cache_write_fails st.ranks raw_records today with
  | Except.error _ => (false, st)
  | Except.ok ranks2 =>
    let res := publish_results st.sink now scored_records
    (res.1, { ranks := ranks2, sink := res.2 })

/-! ## Spec-side definitions

These are written from the specification's wording (not from the code)
and are compared with the embedded code in the theorems below. -/

namespace AppScorer

/-- Spec-side rank-delta bucket contribution to the demand score: the
first matching threshold wins, most-improved first. -/
def demand_delta_contrib : Option Int → ℚ
  | none => 0
  | some d =>
    if d ≤ -10 then 2.0
    else if d ≤ -5 then 1.5
    else if d ≤ -1 then 1.0
    else if d = 0 then 0.5
    else if d ≤ 5 then 0.0
    else -0.5

/-- Spec-side rating-volume contribution to the demand score. -/
def demand_rating_contrib (rating_count : Nat) : ℚ :=
  if rating_count ≥ 10000 then 1.0
  else if rating_count ≥ 1000 then 0.5
  else if rating_count ≥ 100 then 0.25
  else 0

/-- Spec-side review-velocity contribution to the demand score:
`+0.5` when at least 3 recent review samples are supplied. -/
def demand_review_contrib : Option (List String) → ℚ
  | none => 0
  | some revs => if revs.length ≥ 3 then 0.5 else 0

/-- Number of distinct paywall-indicator vocabulary terms occurring
case-insensitively in a description (the vocabulary list is
duplicate-free, see `compute_monetization_score_spec`). -/
def paywallIndicatorsFound (description : String) : Nat :=
  (paywall_indicators.filter (fun t => strContains (lowerAscii description) t)).length

end AppScorer

/-! ## Sample data for witnesses -/

/-- A concrete raw record (the shape used throughout the repo's tests). -/
def sampleRaw : RawAppRecord :=
  { category := "Utilities"
    country := "US"
    chart := "free"
    rank := 1
    app_id := "123"
    name := "Test App"
    rss_url := "https://example.com"
    fetched_at := 0
    raw_data := none }

/-- Concrete page data for the sample record. -/
def samplePage : AppPageData :=
  { bundle_id := "com.test.app"
    price := 0
    has_iap := true
    rating_count := 1000
    rating_avg := 4
    desc_len := 200
    recent_reviews := none }

/-- A concrete scored record, produced by the embedded scorer itself. -/
def sampleScored : ScoredAppRecord :=
  AppScorer.score_app sampleRaw samplePage (some (-5))

/-! ## Theorems -/

namespace AppScorer

theorem demandRankDeltaStep_eq (s : ℚ) (d : Option Int) :
    demandRankDeltaStep s d = s + demand_delta_contrib d := by
  rcases d with _ | d
  · simp [demandRankDeltaStep, demand_delta_contrib]
  · simp only [demandRankDeltaStep, demand_delta_contrib]
    split_ifs <;> ring

theorem demandRatingStep_eq (s : ℚ) (c : Nat) :
    demandRatingStep s c = s + demand_rating_contrib c := by
  simp only [demandRatingStep, demand_rating_contrib]
  split_ifs <;> ring

theorem demandReviewStep_eq (s : ℚ) (r : Option (List String)) :
    demandReviewStep s r = s + demand_review_contrib r := by
  rcases r with _ | revs
  · simp [demandReviewStep, demand_review_contrib]
  · simp only [demandReviewStep, demand_review_contrib]
    split_ifs <;> ring

/-- C3: for every optional rank delta, rating count and optional review
list, `compute_demand_score` equals 1.0 plus the first-matching
rank-delta bucket contribution (when the delta is present), plus the
rating-volume contribution, plus 0.5 when at least 3 recent review
samples are supplied, the sum clamped to the interval [1.0, 5.0]. -/
theorem demand_score_decomposition (rank_delta7d : Option Int) (rating_count : Nat)
    (recent_reviews : Option (List String)) :
    compute_demand_score rank_delta7d rating_count recent_reviews
      = max 1.0 (min 5.0 (1.0 + demand_delta_contrib rank_delta7d
          + demand_rating_contrib rating_count + demand_review_contrib recent_reviews)) := by
  simp only [compute_demand_score, demandRankDeltaStep_eq, demandRatingStep_eq,
    demandReviewStep_eq]

/-- C5: for every price ≥ 0, IAP flag and description,
`compute_monetization_score` returns exactly one of {1.0, 3.0, 4.0, 5.0}:
5.0 for paid with IAP, 3.0 for paid without IAP, for free with IAP 4.0
exactly when at least 3 distinct paywall-indicator terms of the fixed
vocabulary occur case-insensitively in the description and 3.0 otherwise,
and 1.0 for free without IAP; the vocabulary list is duplicate-free, so
the count is a count of distinct terms. -/
theorem monetization_score_discrete (price : ℚ) (has_iap : Bool) (description : String)
    (hprice : 0 ≤ price) :
    (compute_monetization_score price has_iap description = 1 ∨
     compute_monetization_score price has_iap description = 3 ∨
     compute_monetization_score price has_iap description = 4 ∨
     compute_monetization_score price has_iap description = 5)
    ∧ (0 < price → has_iap = true → compute_monetization_score price has_iap description = 5)
    ∧ (0 < price → has_iap = false → compute_monetization_score price has_iap description = 3)
    ∧ (price = 0 → has_iap = true →
        compute_monetization_score price has_iap description =
          if 3 ≤ paywallIndicatorsFound description then 4 else 3)
    ∧ (price = 0 → has_iap = false → compute_monetization_score price has_iap description = 1)
    ∧ List.Nodup paywall_indicators := by
  have hnodup : List.Nodup paywall_indicators := by decide
  rcases lt_or_eq_of_le hprice with hpos | hzero
  · have hne : price ≠ 0 := ne_of_gt hpos
    cases has_iap with
    | true =>
      have hval : compute_monetization_score price true description = 5.0 := by
        simp only [compute_monetization_score, if_pos hpos, if_true]
      refine ⟨?_, ?_, ?_, ?_, ?_, hnodup⟩
      · norm_num [hval]
      · intro _ _; norm_num [hval]
      · intro _ h; exact Bool.noConfusion h
      · intro h _; exact absurd h hne
      · intro h _; exact absurd h hne
    | false =>
      have hval : compute_monetization_score price false description = 3.0 := by
        simp only [compute_monetization_score, if_pos hpos, Bool.false_eq_true, if_false]
      refine ⟨?_, ?_, ?_, ?_, ?_, hnodup⟩
      · norm_num [hval]
      · intro _ h; exact Bool.noConfusion h
      · intro _ _; norm_num [hval]
      · intro h _; exact absurd h hne
      · intro h _; exact absurd h hne
  · subst hzero
    have hnotpos : ¬ ((0:ℚ) > 0) := lt_irrefl 0
    cases has_iap with
    | true =>
      have hval : compute_monetization_score 0 true description
          = if 3 ≤ paywallIndicatorsFound description then (4.0:ℚ) else 3.0 := by
        simp only [compute_monetization_score, if_neg hnotpos, if_true,
          paywallIndicatorsFound, ge_iff_le]
      refine ⟨?_, ?_, ?_, ?_, ?_, hnodup⟩
      · rw [hval]; split_ifs <;> norm_num
      · intro h _; exact absurd h hnotpos
      · intro h _; exact absurd h hnotpos
      · intro _ _; rw [hval]; split_ifs <;> norm_num
      · intro _ h; exact Bool.noConfusion h
    | false =>
      have hval : compute_monetization_score 0 false description = 1.0 := by
        simp only [compute_monetization_score, if_neg hnotpos, Bool.false_eq_true, if_false]
      refine ⟨?_, ?_, ?_, ?_, ?_, hnodup⟩
      · norm_num [hval]
      · intro h _; exact absurd h hnotpos
      · intro h _; exact absurd h hnotpos
      · intro _ h; exact Bool.noConfusion h
      · intro _ _; norm_num [hval]

/-- Witness for C5: a free app with IAP whose description contains the
three distinct indicator terms "premium", "pro" and "buy" scores 4.0. -/
theorem monetization_score_discrete_witness :
    compute_monetization_score 0 true "premium pro buy" = 4 := by
  have h := (monetization_score_discrete 0 true "premium pro buy" le_rfl).2.2.2.1 rfl rfl
  rw [h, if_pos (by decide)]

/-- C1: for all sub-scores in [1, 5], `compute_total_score` returns the
weighted sum `0.35*demand + 0.25*monetization + 0.25*low_complexity +
0.15*(5.0 - moat_risk)` rounded to two decimal places, and in particular
the value 3.85 at demand=4.0, monetization=3.0, low_complexity=5.0,
moat_risk=2.0. -/
theorem total_score_formula (d m c r : ℚ)
    (hd : 1 ≤ d ∧ d ≤ 5) (hm : 1 ≤ m ∧ m ≤ 5) (hc : 1 ≤ c ∧ c ≤ 5) (hr : 1 ≤ r ∧ r ≤ 5) :
    compute_total_score d m c r
      = roundTo2 (0.35 * d + 0.25 * m + 0.25 * c + 0.15 * (5.0 - r))
    ∧ compute_total_score 4 3 5 2 = 3.85 := by
  refine ⟨rfl, ?_⟩
  norm_num [compute_total_score, roundTo2]

/-- Witness for C1 at the documented example point. -/
theorem total_score_formula_witness : compute_total_score 4 3 5 2 = 3.85 :=
  (total_score_formula 4 3 5 2 (by norm_num) (by norm_num) (by norm_num) (by norm_num)).2

end AppScorer

namespace AppScorer

/-- C9: for every record list, attribute map and optional delta map,
`score_apps` skips exactly the records whose app id has no entry in the
attribute map and scores the rest in input order; being a total
function, it neither raises nor aborts the batch. -/
theorem score_apps_skips_missing (raw_records : List RawAppRecord)
    (app_data_map : List (String × AppPageData))
    (rank_deltas : Option (List (String × Int))) :
    score_apps raw_records app_data_map rank_deltas
      = (raw_records.filter (fun r => (app_data_map.lookup r.app_id).isSome)).map
          (fun r => score_app r ((app_data_map.lookup r.app_id).getD default)
            (deltaFor rank_deltas r.app_id)) := by
  induction raw_records with
  | nil => rfl
  | cons r rs ih =>
    simp only [score_apps, List.filterMap_cons, List.filter_cons] at *
    cases h : app_data_map.lookup r.app_id with
    | none => simp [h, ih]
    | some d => simp [h, ih, deltaFor]

end AppScorer

theorem insertOrReplaceRank_count (table : List RankRow) (row : RankRow) :
    countRankKey (insertOrReplaceRank table row) (rankKey row) = 1 := by
  simp only [countRankKey, insertOrReplaceRank, List.filter_append, List.length_append]
  have h1 : (table.filter (fun t => decide ¬(rankKey t = rankKey row))).filter
      (fun t => decide (rankKey t = rankKey row)) = [] := by
    induction table with
    | nil => rfl
    | cons a l ih =>
      by_cases h : rankKey a = rankKey row <;> simp [List.filter_cons, h, ih]
  rw [h1]
  simp [List.filter_cons]

/-- C7: storing a chart observation whose primary key (app id, category,
country, chart, date) is already present replaces the old row: after two
`store_ranks` calls recording the same key, exactly one row with that key
exists, whatever the table held before. -/
theorem store_ranks_upsert_key (table : List RankRow) (rec1 rec2 : RawAppRecord)
    (d1 d2 : Nat)
    (hkey : rankKey (toRankRow rec1 d1) = rankKey (toRankRow rec2 d2)) :
    countRankKey (store_ranks (store_ranks table [rec1] d1) [rec2] d2)
      (rankKey (toRankRow rec2 d2)) = 1 := by
  simp only [store_ranks, List.foldl_cons, List.foldl_nil]
  exact insertOrReplaceRank_count _ _

/-- Witness for C7: storing the sample record twice on the same day
leaves exactly one row with its key. -/
theorem store_ranks_upsert_key_witness :
    countRankKey (store_ranks (store_ranks [] [sampleRaw] 7) [sampleRaw] 7)
      (rankKey (toRankRow sampleRaw 7)) = 1 :=
  store_ranks_upsert_key [] sampleRaw sampleRaw 7 7 rfl

/-- C8: the content-cache fetch returns `none` both when no entry exists
for the key and when the stored entry is older than `max_age_hours`
hours, and returns the stored content when the entry is younger than
`max_age_hours` hours. -/
theorem get_html_freshness (table : List HtmlRow) (app_id country : String)
    (max_age_hours now : Int) :
    (table.find? (htmlKeyMatches app_id country) = none →
        get_html table app_id country max_age_hours now = none)
    ∧ (∀ row, table.find? (htmlKeyMatches app_id country) = some row →
        max_age_hours * 3600 < now - row.cached_at →
        get_html table app_id country max_age_hours now = none)
    ∧ (∀ row, table.find? (htmlKeyMatches app_id country) = some row →
        now - row.cached_at < max_age_hours * 3600 →
        get_html table app_id country max_age_hours now = some row.html) := by
  refine ⟨?_, ?_, ?_⟩
  · intro h
    simp [get_html, h]
  · intro row h hstale
    simp only [get_html, h]
    rw [if_neg (by omega)]
  · intro row h hfresh
    simp only [get_html, h]
    rw [if_pos (by omega)]

/-- Witness for C8: an absent entry and a 25-hour-old entry miss at a
24-hour maximum age; an entry younger than 24 hours hits. -/
theorem get_html_freshness_witness :
    get_html [] "1" "us" 24 90000 = none
    ∧ get_html [⟨"1", "us", "page", 0⟩] "1" "us" 24 90000 = none
    ∧ get_html [⟨"1", "us", "page", 10000⟩] "1" "us" 24 90000 = some "page" :=
  ⟨(get_html_freshness [] "1" "us" 24 90000).1 (by decide),
   (get_html_freshness [⟨"1", "us", "page", 0⟩] "1" "us" 24 90000).2.1
     ⟨"1", "us", "page", 0⟩ (by decide) (by norm_num),
   (get_html_freshness [⟨"1", "us", "page", 10000⟩] "1" "us" 24 90000).2.2
     ⟨"1", "us", "page", 10000⟩ (by decide) (by norm_num)⟩

theorem length_insertByDateDesc (r : RankRow) (l : List RankRow) :
    (insertByDateDesc r l).length = l.length + 1 := by
  induction l with
  | nil => rfl
  | cons x xs ih =>
    simp only [insertByDateDesc]
    split_ifs <;> simp [ih]

theorem length_sortByDateDesc (l : List RankRow) :
    (sortByDateDesc l).length = l.length := by
  induction l with
  | nil => rfl
  | cons x xs ih => simp [sortByDateDesc, length_insertByDateDesc, ih]

theorem deltaEntry_none_of_small (table : List RankRow) (cutoff : Nat) (app_id : String)
    (hlt : (windowRows table app_id cutoff).length < 2) :
    deltaEntry table cutoff app_id = none := by
  have hlen : (sortByDateDesc (windowRows table app_id cutoff)).length < 2 := by
    rw [length_sortByDateDesc]; exact hlt
  rcases hs : sortByDateDesc (windowRows table app_id cutoff) with _ | ⟨a, _ | ⟨b, t⟩⟩
  · simp [deltaEntry, queryTop2, hs]
  · simp [deltaEntry, queryTop2, hs]
  · rw [hs] at hlen; simp at hlen; omega

theorem deltaEntry_fst (table : List RankRow) (cutoff : Nat) (x : String)
    (p : String × Int) (h : deltaEntry table cutoff x = some p) : p.1 = x := by
  rcases hs : queryTop2 table x cutoff with _ | ⟨a, _ | ⟨b, _ | ⟨c, t⟩⟩⟩ <;>
    simp [deltaEntry, hs] at h
  exact (congrArg Prod.fst h.symm)

/-- C4: an app id with fewer than two observations in the lookback
window is omitted from the rank-delta result (it never defaults to
zero); with at least two, the most recent two in-window observations by
descending date give delta = mostRecent.rank − oldest.rank. -/
theorem get_rank_deltas_window (table : List RankRow) (app_ids : List String)
    (cutoff : Nat) (app_id : String) (hmem : app_id ∈ app_ids) :
    ((windowRows table app_id cutoff).length < 2 →
        ∀ δ : Int, (app_id, δ) ∉ get_rank_deltas table app_ids cutoff)
    ∧ (∀ a b rest, sortByDateDesc (windowRows table app_id cutoff) = a :: b :: rest →
        (app_id, a.rank - b.rank) ∈ get_rank_deltas table app_ids cutoff) := by
  constructor
  · intro hlt δ hin
    rw [get_rank_deltas, List.mem_filterMap] at hin
    obtain ⟨x, hx, hfx⟩ := hin
    have hxid : x = app_id := by
      have := deltaEntry_fst table cutoff x (app_id, δ) hfx
      simpa using this.symm
    subst hxid
    rw [deltaEntry_none_of_small table cutoff x hlt] at hfx
    exact Option.noConfusion hfx
  · intro a b rest hs
    have htake : queryTop2 table app_id cutoff = [a, b] := by
      rw [queryTop2, hs]
      rcases rest with _ | ⟨c, t⟩ <;> simp [List.take]
    rw [get_rank_deltas, List.mem_filterMap]
    exact ⟨app_id, hmem, by simp [deltaEntry, htake]⟩

/-- Witness for C4: with two in-window observations (rank 10 on day 3,
rank 5 on day 10) the delta for "x" is 5 − 10 = −5 and is present in the
result. -/
theorem get_rank_deltas_window_witness :
    ("x", (-5 : Int)) ∈ get_rank_deltas
      [⟨"x", "Utilities", "US", "free", 10, 3⟩, ⟨"x", "Utilities", "US", "free", 5, 10⟩]
      ["x"] 0 := by
  have h := (get_rank_deltas_window
    [⟨"x", "Utilities", "US", "free", 10, 3⟩, ⟨"x", "Utilities", "US", "free", 5, 10⟩]
    ["x"] 0 "x" (by simp)).2
    ⟨"x", "Utilities", "US", "free", 5, 10⟩ ⟨"x", "Utilities", "US", "free", 10, 3⟩ []
    (by decide)
  simpa using h

theorem insertBatches_aux : ∀ (n : Nat) (rows : List DbRow), rows.length ≤ n →
    ∀ sink, insertBatches sink rows = sink ++ rows := by
  intro n
  induction n with
  | zero =>
    intro rows h sink
    have hnil : rows = [] := List.length_eq_zero.mp (Nat.le_zero.mp h)
    subst hnil
    simp [insertBatches]
  | succ n ih =>
    intro rows h sink
    rcases rows with _ | ⟨r, rest⟩
    · simp [insertBatches]
    · rw [insertBatches]
      rw [ih ((r :: rest).drop 100)
        (by simp only [List.length_drop, List.length_cons] at h ⊢; omega)]
      rw [List.append_assoc, List.take_append_drop]

theorem insertBatches_append (sink rows : List DbRow) :
    insertBatches sink rows = sink ++ rows :=
  insertBatches_aux rows.length rows le_rfl sink

theorem publish_results_snd (sink : List DbRow) (now : Int)
    (s : ScoredAppRecord) (ss : List ScoredAppRecord) :
    (publish_results sink now (s :: ss)).2
      = deleteBatchRows sink now ++ convert_to_db_rows now (s :: ss) := by
  simp only [publish_results, insertBatches_append]
  rfl

theorem deleteBatchRows_convert (now : Int) (recs : List ScoredAppRecord) :
    deleteBatchRows (convert_to_db_rows now recs) now = [] := by
  induction recs with
  | nil => rfl
  | cons s ss ih =>
    simp only [convert_to_db_rows, List.map_cons, deleteBatchRows, List.filter_cons] at *
    simp only [convert_to_db_row, decide_not]
    simpa using ih

theorem deleteBatchRows_idem (sink : List DbRow) (t : Int) :
    deleteBatchRows (deleteBatchRows sink t) t = deleteBatchRows sink t := by
  induction sink with
  | nil => rfl
  | cons a l ih =>
    by_cases h : a.generated_at = t <;>
      simp [deleteBatchRows, List.filter_cons, h] at *

theorem filterBatch_delete (sink : List DbRow) (t : Int) :
    (deleteBatchRows sink t).filter (fun row => row.generated_at = t) = [] := by
  induction sink with
  | nil => rfl
  | cons a l ih =>
    by_cases h : a.generated_at = t <;>
      simp [deleteBatchRows, List.filter_cons, h] at *

theorem filterBatch_convert (now : Int) (recs : List ScoredAppRecord) :
    (convert_to_db_rows now recs).filter (fun row => row.generated_at = now)
      = convert_to_db_rows now recs := by
  induction recs with
  | nil => rfl
  | cons s ss ih =>
    simp only [convert_to_db_rows, List.map_cons, List.filter_cons] at *
    simp only [convert_to_db_row]
    simpa using ih

/-- C10: publishing the empty record list succeeds trivially: it returns
`True` and performs no delete and no insert, leaving the sink as it
was. -/
theorem publish_results_empty_noop (sink : List DbRow) (now : Int) :
    publish_results sink now [] = (true, sink) := rfl

/-- C2: publishing a second (non-empty) batch with the same timestamp
first deletes every row sharing that timestamp, so the rows carrying the
batch timestamp afterwards are exactly the second batch's rows (no
duplicates, no leftovers), and the final sink equals what a single
publish of the second batch would have produced. -/
theorem publish_twice_replaces (sink : List DbRow) (now : Int)
    (recs1 recs2 : List ScoredAppRecord) (h2 : recs2 ≠ []) :
    ((publish_results (publish_results sink now recs1).2 now recs2).2).filter
        (fun row => row.generated_at = now) = convert_to_db_rows now recs2
    ∧ (publish_results (publish_results sink now recs1).2 now recs2).2
      = (publish_results sink now recs2).2 := by
  obtain ⟨s2, ss2, rfl⟩ := List.exists_cons_of_ne_nil h2
  have key : deleteBatchRows (publish_results sink now recs1).2 now
      = deleteBatchRows sink now := by
    rcases recs1 with _ | ⟨s1, ss1⟩
    · rfl
    · rw [publish_results_snd]
      simp only [deleteBatchRows, List.filter_append] at *
      have h1 := deleteBatchRows_idem sink now
      have hc := deleteBatchRows_convert now (s1 :: ss1)
      simp only [deleteBatchRows] at h1 hc
      rw [h1, hc, List.append_nil]
  constructor
  · rw [publish_results_snd, List.filter_append, filterBatch_delete, filterBatch_convert]
    simp
  · rw [publish_results_snd, publish_results_snd, key]

/-- Witness for C2: re-publishing the one-record sample batch with the
same timestamp leaves exactly the second publish's rows. -/
theorem publish_twice_replaces_witness :
    ((publish_results (publish_results [] 0 [sampleScored]).2 0 [sampleScored]).2).filter
        (fun row => row.generated_at = 0) = convert_to_db_rows 0 [sampleScored]
    ∧ (publish_results (publish_results [] 0 [sampleScored]).2 0 [sampleScored]).2
      = (publish_results [] 0 [sampleScored]).2 :=
  publish_twice_replaces [] 0 [sampleScored] [sampleScored] (List.cons_ne_nil _ _)

/-- C6 counterexample: with the sample batch, a failing rank-cache write
makes `store_and_publish` return `False` with the sink untouched, even
though the publish of the same batch would have succeeded (and would
have written one row) — contradicting the claim that the sink write is
still attempted and alone determines the batch result. -/
theorem store_and_publish_cache_failure_counterexample :
    (store_and_publish true ⟨[], []⟩ 0 0 [sampleScored]).1 = false
    ∧ (store_and_publish true ⟨[], []⟩ 0 0 [sampleScored]).2.sink = []
    ∧ (publish_results ([] : List DbRow) 0 [sampleScored]).1 = true
    ∧ (publish_results ([] : List DbRow) 0 [sampleScored]).2.length = 1 := by
  refine ⟨rfl, rfl, rfl, ?_⟩
  rw [publish_results_snd]
  simp [deleteBatchRows, convert_to_db_rows]

/-- C6 as amended: a cache-write failure alone fails the batch —
`store_and_publish` returns `False` with the state unchanged and never
reaches the sink write; when the cache write succeeds, the batch result
is exactly the sink write's result alongside both updated stores. -/
theorem store_and_publish_cache_gate (cache_write_fails : Bool) (st : DataStoreState)
    (today : Nat) (now : Int) (recs : List ScoredAppRecord) :
    (cache_write_fails = true →
        store_and_publish cache_write_fails st today now recs = (false, st))
    ∧ (cache_write_fails = false →
        store_and_publish cache_write_fails st today now recs
          = ((publish_results st.sink now recs).1,
             { ranks := store_ranks st.ranks (recs.map (fun s => s.toRawAppRecord)) today
               sink := (publish_results st.sink now recs).2 })) := by
  constructor
  · intro h; subst h; rfl
  · intro h; subst h; rfl

/-- Witness for C6's amended statement, on the empty state: a failing
cache write yields `(false, unchanged)`, a succeeding one yields the
publish result. -/
theorem store_and_publish_cache_gate_witness :
    store_and_publish true ⟨[], []⟩ 0 0 [] = (false, ⟨[], []⟩)
    ∧ store_and_publish false ⟨[], []⟩ 0 0 [] = (true, ⟨[], []⟩) :=
  ⟨(store_and_publish_cache_gate true ⟨[], []⟩ 0 0 []).1 rfl,
   (store_and_publish_cache_gate false ⟨[], []⟩ 0 0 []).2 rfl⟩
